import Mathlib

/-!
Verification of the beaconcha.in helper scripts (`scripts/*.py`).

Conventions of the shallow embedding:
* Python ints are `ℤ` (or `ℕ` where the source value is a count), Python
  floats are exact rationals `ℚ` (every float literal appearing in the
  sources — `1e18`, `1e15`, `6.4`, `99.5` — denotes a dyadic/decimal value
  that `ℚ` represents exactly).
* Python `//` on ints is floor division: `Int.fdiv` on `ℤ`, `Nat.div` on `ℕ`.
* Python `/` is exact division on `ℚ`.
* the float infinity is modelled by `Option.none`; every finite float is `some q`.
-/

/- ===== scripts/epoch_converter.py ===== -/

/-- Beacon-chain genesis timestamp constant (epoch_converter.py line 20). -/
def GENESIS_TIMESTAMP : ℤ := 1606824023

/-- Seconds per slot (epoch_converter.py line 21). -/
def SECONDS_PER_SLOT : ℤ := 12

/-- Slots per epoch (epoch_converter.py line 22). -/
def SLOTS_PER_EPOCH : ℤ := 32

/-- Seconds per epoch, `SECONDS_PER_SLOT * SLOTS_PER_EPOCH` (line 23). -/
def SECONDS_PER_EPOCH : ℤ := SECONDS_PER_SLOT * SLOTS_PER_EPOCH

/-- Embeds `epoch_to_timestamp` (epoch_converter.py lines 28-29):
`GENESIS_TIMESTAMP + (epoch * SECONDS_PER_EPOCH)`. -/
def epoch_to_timestamp (epoch : ℤ) : ℤ :=
  GENESIS_TIMESTAMP + epoch * SECONDS_PER_EPOCH

/-- Embeds `timestamp_to_epoch` (epoch_converter.py lines 32-33):
`max(0, (ts - GENESIS_TIMESTAMP) // SECONDS_PER_EPOCH)`; Python `//` is
floor division, `Int.fdiv`. -/
def timestamp_to_epoch (ts : ℤ) : ℤ :=
  max 0 ((ts - GENESIS_TIMESTAMP).fdiv SECONDS_PER_EPOCH)

/- ===== scripts/format_queues.py ===== -/

/-- Embeds `calc_wait` (format_queues.py lines 31-38).  Returns the pair
(wait_hours, churn_limit).  The guard branch returns `(0, 0)` exactly as the
source does. -/
def calc_wait (queue_length active_validators : ℕ) : ℚ × ℕ :=
  let churn_limit := max 4 (active_validators / 65536)
  if churn_limit = 0 then (0, 0)
  else
    let wait_epochs : ℚ := (queue_length : ℚ) / (churn_limit : ℚ)
    (wait_epochs * 6.4 / 60, churn_limit)

/- ===== scripts/format_network.py ===== -/

/-- Embeds `estimate_queue_wait` (format_network.py lines 38-45).  The guard
branch returns the float infinity, modelled as `none`; the normal branch returns
the finite value `some (wait_epochs * 6.4 / 60)`. -/
def estimate_queue_wait (queue_length active_validators : ℕ) : Option ℚ × ℕ :=
  let churn_limit := max 4 (active_validators / 65536)
  if churn_limit = 0 then (none, churn_limit)
  else
    let wait_epochs : ℚ := (queue_length : ℚ) / (churn_limit : ℚ)
    (some (wait_epochs * 6.4 / 60), churn_limit)

/- ===== scripts/analyze_missed.py ===== -/

/-- Embeds `pct` (analyze_missed.py lines 24-27): returns 0.0 when the total
is 0, else `part / total * 100`. -/
def pct (part total : ℚ) : ℚ :=
  if total = 0 then 0 else part / total * 100

/- ===== scripts/format_rewards.py ===== -/

/-- Embeds `calc_efficiency` (format_rewards.py lines 30-35): efficiency as
`reward / (reward + penalty + missed) * 100`, returning 100.0 when the
denominator `total_possible` is 0. -/
def calc_efficiency (reward penalty missed : ℚ) : ℚ :=
  let total_possible := reward + penalty + missed
  if total_possible = 0 then 100 else reward / total_possible * 100

/- ===== scripts/calc_apr.py ===== -/

/-- Epochs per year constant (calc_apr.py line 17). -/
def EPOCHS_PER_YEAR : ℚ := 82125

/-- Embeds `calc_apr` (calc_apr.py lines 30-35): 0 when the balance or the
epoch count is 0, else `(rewards / balance) * (EPOCHS_PER_YEAR / epochs) * 100`. -/
def calc_apr (rewards_eth balance_eth epochs : ℚ) : ℚ :=
  if balance_eth = 0 ∨ epochs = 0 then 0
  else
    let period_rate := rewards_eth / balance_eth
    period_rate * (EPOCHS_PER_YEAR / epochs) * 100

/-- Input of the unit converters `wei_to_eth` of calc_apr.py and
format_aggregate.py: either a decimal-digit string (parsed by the Python
function `int` to an arbitrary-precision integer) or a native int/float number
(exact value as a rational). -/
inductive JsonNum where
  | str (n : ℤ)
  | num (q : ℚ)

/-- Embeds `wei_to_eth` (calc_apr.py lines 20-23): a string is parsed and
divided by `1e18`; a native number is divided by `1e18` only when strictly
greater than `1e15`, else returned unchanged. -/
def wei_to_eth : JsonNum → ℚ
  | JsonNum.str n => (n : ℚ) / 1e18
  | JsonNum.num q => if q > 1e15 then q / 1e18 else q

/-- Embeds `wei_to_eth` of format_aggregate.py (lines 16-19), which tests the
native-number case first; same cases as `wei_to_eth` of calc_apr.py. -/
def wei_to_eth_agg : JsonNum → ℚ
  | JsonNum.num q => if q > 1e15 then q / 1e18 else q
  | JsonNum.str n => (n : ℚ) / 1e18

/- ===== theorems ===== -/

/-- C2: for every epoch `e ≥ 0`, converting the epoch to its timestamp and
back yields the same epoch: `timestamp_to_epoch (epoch_to_timestamp e) = e`. -/
theorem epoch_timestamp_round_trip (e : ℤ) (he : 0 ≤ e) :
    timestamp_to_epoch (epoch_to_timestamp e) = e := by
  unfold timestamp_to_epoch epoch_to_timestamp
  have h384 : SECONDS_PER_EPOCH = 384 := by
    unfold SECONDS_PER_EPOCH SECONDS_PER_SLOT SLOTS_PER_EPOCH; norm_num
  rw [h384]
  have : GENESIS_TIMESTAMP + e * 384 - GENESIS_TIMESTAMP = e * 384 := by ring
  rw [this, Int.mul_fdiv_cancel e (by norm_num)]
  exact max_eq_right he

/-- C2 witness: the round trip at the concrete epoch 347566. -/
theorem epoch_timestamp_round_trip_witness :
    timestamp_to_epoch (epoch_to_timestamp 347566) = 347566 :=
  epoch_timestamp_round_trip 347566 (by norm_num)

/-- C3: every timestamp strictly before genesis maps to epoch 0 — the result
saturates at 0, it is never negative and never an error. -/
theorem timestamp_before_genesis_saturates (t : ℤ) (ht : t < GENESIS_TIMESTAMP) :
    timestamp_to_epoch t = 0 := by
  unfold timestamp_to_epoch
  have hneg : t - GENESIS_TIMESTAMP < 0 := by omega
  have hlt : (t - GENESIS_TIMESTAMP).fdiv SECONDS_PER_EPOCH < 0 := by
    have : (0 : ℤ) < SECONDS_PER_EPOCH := by
      unfold SECONDS_PER_EPOCH SECONDS_PER_SLOT SLOTS_PER_EPOCH; norm_num
    exact Int.fdiv_neg' hneg this
  exact max_eq_left (le_of_lt hlt)

/-- C3 witness: timestamp 0 (well before genesis) yields epoch 0. -/
theorem timestamp_before_genesis_saturates_witness :
    timestamp_to_epoch 0 = 0 :=
  timestamp_before_genesis_saturates 0 (by unfold GENESIS_TIMESTAMP; norm_num)

/-- C5: the churn limit computed by `calc_wait` (and `estimate_queue_wait`)
is `max 4 (x / 65536)`, hence at least 4 for every active-validator count,
and equals 14 at 970000 active validators. -/
theorem churn_limit_spec (q x : ℕ) :
    (calc_wait q x).2 = max 4 (x / 65536) ∧
    4 ≤ (calc_wait q x).2 ∧
    (estimate_queue_wait q x).2 = max 4 (x / 65536) ∧
    4 ≤ (estimate_queue_wait q x).2 ∧
    (calc_wait q 970000).2 = 14 := by
  have hne : max 4 (x / 65536) ≠ 0 := by positivity
  have h14 : max 4 (970000 / 65536 : ℕ) = 14 := by norm_num
  have hne14 : max 4 (970000 / 65536 : ℕ) ≠ 0 := by norm_num
  refine ⟨?_, ?_, ?_, ?_, ?_⟩
  · simp only [calc_wait, if_neg hne]
  · simp only [calc_wait, if_neg hne]; exact le_max_left 4 _
  · simp only [estimate_queue_wait, if_neg hne]
  · simp only [estimate_queue_wait, if_neg hne]; exact le_max_left 4 _
  · simp only [calc_wait, if_neg hne14]; exact h14

/-- C1 counterexample: the claim says the capture rate is defined as 0 when
the denominator `earned + missed + penalty` is 0, but `calc_efficiency`
(format_rewards.py) returns 100.0 on the all-zero input. -/
theorem calc_efficiency_zero_denominator_counterexample :
    calc_efficiency 0 0 0 = 100 ∧ (100 : ℚ) ≠ 0 := by
  constructor
  · norm_num [calc_efficiency]
  · norm_num

/-- C1 amended: whenever the denominator `earned + missed + penalty` is
nonzero, both `pct` (analyze_missed.py) and `calc_efficiency`
(format_rewards.py) compute `earned / (earned + missed + penalty) * 100`,
never a division fault; at denominator 0, `pct` returns 0 while
`calc_efficiency` returns 100. -/
theorem capture_rate_formula (e m p : ℚ) :
    (e + m + p ≠ 0 →
      pct e (e + m + p) = e / (e + m + p) * 100 ∧
      calc_efficiency e p m = e / (e + m + p) * 100) ∧
    (e + m + p = 0 →
      pct e (e + m + p) = 0 ∧ calc_efficiency e p m = 100) := by
  have hcomm : e + p + m = e + m + p := by ring
  constructor
  · intro h
    constructor
    · simp only [pct, if_neg h]
    · simp only [calc_efficiency, hcomm, if_neg h]
  · intro h
    constructor
    · simp only [pct, if_pos h]
    · simp only [calc_efficiency, hcomm, if_pos h]

/-- C1 witness: the amended statement evaluated at earned 1, missed 2,
penalty 3. -/
theorem capture_rate_formula_witness :
    (1 + 2 + 3 : ℚ) ≠ 0 ∧ pct 1 (1 + 2 + 3) = 1 / (1 + 2 + 3) * 100 :=
  ⟨by norm_num, ((capture_rate_formula 1 2 3).1 (by norm_num)).1⟩

/-- C4: `calc_apr` returns 0 whenever the baseline stake or the period epoch
count is 0 (a defined result, not an error); otherwise it returns
`(netReward / baselineStake) * (EPOCHS_PER_YEAR / periodEpochs) * 100` with
`EPOCHS_PER_YEAR = 82125`. -/
theorem calc_apr_spec (r b e : ℚ) :
    (b = 0 ∨ e = 0 → calc_apr r b e = 0) ∧
    (b ≠ 0 → e ≠ 0 → calc_apr r b e = r / b * (82125 / e) * 100) := by
  constructor
  · intro h
    simp only [calc_apr, if_pos h]
  · intro hb he
    have h : ¬(b = 0 ∨ e = 0) := by
      intro hc
      rcases hc with hc | hc
      · exact hb hc
      · exact he hc
    simp only [calc_apr, if_neg h, EPOCHS_PER_YEAR]

/-- C4 witness: concrete zero-stake and regular-case evaluations. -/
theorem calc_apr_spec_witness :
    calc_apr 5 0 7 = 0 ∧
    ((2 : ℚ) ≠ 0 ∧ (3 : ℚ) ≠ 0 ∧ calc_apr 5 2 3 = 5 / 2 * (82125 / 3) * 100) :=
  ⟨(calc_apr_spec 5 0 7).1 (Or.inl rfl),
   by norm_num, by norm_num,
   (calc_apr_spec 5 2 3).2 (by norm_num) (by norm_num)⟩

/-- C7 counterexample: the claim says every native numeric input at or above
`10^15` is divided by `10^18`, but the code uses a strict comparison: at
exactly `10^15`, `wei_to_eth` returns the input unchanged, which differs
from the divided value. -/
theorem wei_to_eth_threshold_counterexample :
    wei_to_eth (JsonNum.num 1e15) = 1e15 ∧ (1e15 : ℚ) ≠ 1e15 / 1e18 := by
  constructor
  · norm_num [wei_to_eth]
  · norm_num

/-- C7 amended: a native numeric input strictly above `10^15` is treated as
raw base units and divided by `10^18`; at or below `10^15` it is returned
unchanged; every decimal-digit string is parsed as an arbitrary-precision
integer and divided by `10^18` regardless of magnitude; the format_aggregate
variant agrees with the calc_apr variant on every input. -/
theorem wei_to_eth_heuristic (q : ℚ) (n : ℤ) :
    (1e15 < q → wei_to_eth (JsonNum.num q) = q / 1e18) ∧
    (q ≤ 1e15 → wei_to_eth (JsonNum.num q) = q) ∧
    wei_to_eth (JsonNum.str n) = (n : ℚ) / 1e18 ∧
    wei_to_eth_agg (JsonNum.num q) = wei_to_eth (JsonNum.num q) ∧
    wei_to_eth_agg (JsonNum.str n) = wei_to_eth (JsonNum.str n) := by
  refine ⟨?_, ?_, rfl, rfl, rfl⟩
  · intro h
    simp only [wei_to_eth, if_pos h]
  · intro h
    simp only [wei_to_eth, if_neg (not_lt.mpr h)]

/-- C7 witness: a native numeric input strictly above the threshold is
divided by `10^18`. -/
theorem wei_to_eth_heuristic_witness :
    (1e15 : ℚ) < 2e15 ∧ wei_to_eth (JsonNum.num 2e15) = 2e15 / 1e18 :=
  ⟨by norm_num, (wei_to_eth_heuristic 2e15 0).1 (by norm_num)⟩

/-- C6: `estimate_queue_wait` (format_network.py) yields the unbounded
sentinel (the float infinity, modelled `none`) exactly when the churn limit is 0
— which, given the `max 4` floor, never happens, so it always returns the
finite value `some (queue / churn * (384 / 3600))` hours; `calc_wait`
(format_queues.py) likewise always computes `queue / churn * (384 / 3600)`
hours, and a queue of length 0 gives wait 0 for every validator count. -/
theorem wait_hours_spec (q a : ℕ) :
    ((estimate_queue_wait q a).1 = none ↔ max 4 (a / 65536) = 0) ∧
    (estimate_queue_wait q a).1 =
      some ((q : ℚ) / ((max 4 (a / 65536) : ℕ) : ℚ) * (384 / 3600)) ∧
    (calc_wait q a).1 = (q : ℚ) / ((max 4 (a / 65536) : ℕ) : ℚ) * (384 / 3600) ∧
    (calc_wait 0 a).1 = 0 ∧
    (estimate_queue_wait 0 a).1 = some 0 := by
  have hne : max 4 (a / 65536) ≠ 0 := by positivity
  have hkey : ∀ qq : ℕ, (qq : ℚ) / ((max 4 (a / 65536) : ℕ) : ℚ) * 6.4 / 60 =
      (qq : ℚ) / ((max 4 (a / 65536) : ℕ) : ℚ) * (384 / 3600) := by
    intro qq
    rw [mul_div_assoc]
    norm_num
  refine ⟨?_, ?_, ?_, ?_, ?_⟩
  · simp only [estimate_queue_wait, if_neg hne]
    exact iff_of_false (by simp) hne
  · simp only [estimate_queue_wait, if_neg hne]
    exact congrArg some (hkey q)
  · simp only [calc_wait, if_neg hne]
    exact hkey q
  · simp only [calc_wait, if_neg hne]
    simp
  · simp only [estimate_queue_wait, if_neg hne]
    simp

/-- Embeds `apr_to_apy` (calc_apr.py lines 38-40): continuous-compounding
conversion `(math.exp(apr_pct / 100) - 1) * 100`, with `math.exp` the natural
exponential on the reals. -/
noncomputable def apr_to_apy (apr_pct : ℝ) : ℝ :=
  (Real.exp (apr_pct / 100) - 1) * 100

/-- C9: `apr_to_apy` equals `(e^(x/100) - 1) * 100` with the natural
exponential; consequently `apr_to_apy 0 = 0` and `apr_to_apy` is strictly
increasing. -/
theorem apr_to_apy_spec :
    (∀ x : ℝ, apr_to_apy x = (Real.exp (x / 100) - 1) * 100) ∧
    apr_to_apy 0 = 0 ∧ StrictMono apr_to_apy := by
  refine ⟨fun x => rfl, ?_, ?_⟩
  · unfold apr_to_apy
    simp [Real.exp_zero]
  · intro a b h
    unfold apr_to_apy
    have h1 : a / 100 < b / 100 := by linarith
    have h2 : Real.exp (a / 100) < Real.exp (b / 100) := Real.exp_lt_exp.mpr h1
    have : Real.exp (a / 100) - 1 < Real.exp (b / 100) - 1 := by linarith
    exact mul_lt_mul_of_pos_right this (by norm_num)

/- ===== scripts/format_beaconscore.py ===== -/

/-- Embeds `score_indicator` (format_beaconscore.py lines 16-26): a five-way
threshold chain over the score, lower edges inclusive. -/
def score_indicator (score : ℚ) : String :=
  if score ≥ 99.5 then "🟢 Exceptional"
  else if score ≥ 99.0 then "🟢 Good"
  else if score ≥ 97.0 then "🟡 Below target"
  else if score ≥ 95.0 then "🟠 Needs attention"
  else "🔴 Poor"

/-- Embeds the capture-rate banding chain at the end of `diagnose`
(analyze_missed.py lines 96-103), keeping the label component of the issue
tuple appended in each branch. -/
def diagnose_band (capture_rate : ℚ) : String :=
  if capture_rate ≥ 99.5 then "✅ Exceptional performance"
  else if capture_rate ≥ 99.0 then "✅ Good performance"
  else if capture_rate ≥ 95.0 then "⚠️  Below target"
  else "🔴 Poor performance"

/-- C8 counterexample: the claim says the banding classifier partitions
[0,100] into exactly four intervals with boundaries {95.0, 99.0, 99.5}; a
partition with those boundaries would give 96 and 98 (both in [95,99)) the
same label, but `score_indicator` (format_beaconscore.py) separates them
with its extra 97.0 boundary. -/
theorem score_indicator_four_band_counterexample :
    (95 : ℚ) ≤ 96 ∧ (96 : ℚ) < 99 ∧ (95 : ℚ) ≤ 98 ∧ (98 : ℚ) < 99 ∧
    score_indicator 96 ≠ score_indicator 98 := by
  refine ⟨by norm_num, by norm_num, by norm_num, by norm_num, ?_⟩
  have h96 : score_indicator 96 = "🟠 Needs attention" := by
    unfold score_indicator
    norm_num
  have h98 : score_indicator 98 = "🟡 Below target" := by
    unfold score_indicator
    norm_num
  rw [h96, h98]
  decide

/-- C8 amended: `diagnose_band` (analyze_missed.py) partitions the scale
into four half-open bands with boundaries {95.0, 99.0, 99.5}, while
`score_indicator` (format_beaconscore.py) partitions it into five bands with
boundaries {95.0, 97.0, 99.0, 99.5}; every band is inclusive on its lower
edge, each value receives exactly one label, and a value of exactly 99.0
falls in the Good band of both classifiers. -/
theorem banding_spec (x : ℚ) :
    (99.5 ≤ x →
      diagnose_band x = "✅ Exceptional performance" ∧
      score_indicator x = "🟢 Exceptional") ∧
    (99 ≤ x → x < 99.5 →
      diagnose_band x = "✅ Good performance" ∧
      score_indicator x = "🟢 Good") ∧
    (97 ≤ x → x < 99 →
      diagnose_band x = "⚠️  Below target" ∧
      score_indicator x = "🟡 Below target") ∧
    (95 ≤ x → x < 97 →
      diagnose_band x = "⚠️  Below target" ∧
      score_indicator x = "🟠 Needs attention") ∧
    (x < 95 →
      diagnose_band x = "🔴 Poor performance" ∧
      score_indicator x = "🔴 Poor") ∧
    diagnose_band 99 = "✅ Good performance" ∧
    score_indicator 99 = "🟢 Good" := by
  refine ⟨?_, ?_, ?_, ?_, ?_, ?_, ?_⟩
  · intro h
    constructor <;>
      · simp only [diagnose_band, score_indicator]
        split_ifs <;> first | rfl | (exfalso; linarith)
  · intro h h'
    constructor <;>
      · simp only [diagnose_band, score_indicator]
        split_ifs <;> first | rfl | (exfalso; linarith)
  · intro h h'
    constructor <;>
      · simp only [diagnose_band, score_indicator]
        split_ifs <;> first | rfl | (exfalso; linarith)
  · intro h h'
    constructor <;>
      · simp only [diagnose_band, score_indicator]
        split_ifs <;> first | rfl | (exfalso; linarith)
  · intro h
    constructor <;>
      · simp only [diagnose_band, score_indicator]
        split_ifs <;> first | rfl | (exfalso; linarith)
  · unfold diagnose_band
    norm_num
  · unfold score_indicator
    norm_num

/-- C8 witness: the amended statement evaluated at a score of 96, inside
the [95,97) band. -/
theorem banding_spec_witness :
    (95 : ℚ) ≤ 96 ∧ (96 : ℚ) < 97 ∧
    diagnose_band 96 = "⚠️  Below target" ∧
    score_indicator 96 = "🟠 Needs attention" :=
  ⟨by norm_num, by norm_num,
   ((banding_spec 96).2.2.2.1 (by norm_num) (by norm_num)).1,
   ((banding_spec 96).2.2.2.1 (by norm_num) (by norm_num)).2⟩

/-- Per-validator totals of one analyzed entry, as produced by
`analyze_entry` (analyze_missed.py lines 30-67): the total reward,
total missed and total penalty in display units. -/
structure RewardTotals where
  reward : ℚ
  missed : ℚ
  penalty : ℚ

/-- Embeds the `capture_rate` field of `analyze_entry` (analyze_missed.py
lines 38 and 64): `pct(total_reward, total_reward + total_missed +
total_penalty)`. -/
def capture_rate (t : RewardTotals) : ℚ :=
  pct t.reward (t.reward + t.missed + t.penalty)

/-- Sum of `total_reward` over the batch, as accumulated by the loop in
`main` (analyze_missed.py lines 126-131). -/
def total_earned (es : List RewardTotals) : ℚ :=
  (es.map RewardTotals.reward).sum

/-- Sum of `total_missed` over the batch (analyze_missed.py lines 127-132). -/
def total_missed (es : List RewardTotals) : ℚ :=
  (es.map RewardTotals.missed).sum

/-- Sum of `total_penalty` over the batch (not accumulated by `main`, used
here to state the batch-level comparison). -/
def total_penalty (es : List RewardTotals) : ℚ :=
  (es.map RewardTotals.penalty).sum

/-- Embeds the aggregate capture rate printed by `main` (analyze_missed.py
lines 160-165): `pct(total_earned, total_earned + total_missed)` — the
penalty totals do not enter the denominator. -/
def aggregate_capture (es : List RewardTotals) : ℚ :=
  pct (total_earned es) (total_earned es + total_missed es)

/-- C10 counterexample: the claim says the aggregate capture rate differs
from the per-validator definition applied to the batch totals for any batch
containing a nonzero penalty; for the batch with the single entry (reward 0,
missed 1, penalty 1) both sides are 0, so they agree despite the nonzero
penalty. -/
theorem aggregate_capture_counterexample :
    (RewardTotals.mk 0 1 1).penalty ≠ 0 ∧
    aggregate_capture [RewardTotals.mk 0 1 1] =
      capture_rate (RewardTotals.mk (total_earned [RewardTotals.mk 0 1 1])
        (total_missed [RewardTotals.mk 0 1 1])
        (total_penalty [RewardTotals.mk 0 1 1])) := by
  constructor
  · norm_num
  · norm_num [aggregate_capture, capture_rate, total_earned, total_missed,
      total_penalty, pct]

/-- C10 amended: the aggregate capture rate over a batch is
`totalEarned / (totalEarned + totalMissed) * 100`, excluding penalties from
the denominator, and it differs from the per-validator definition
`earned / (earned + missed + penalty) * 100` applied to the batch totals
whenever the batch amounts are nonnegative, some validator has a nonzero
penalty, and the total earned is nonzero. -/
theorem aggregate_capture_spec (es : List RewardTotals) :
    (total_earned es + total_missed es ≠ 0 →
      aggregate_capture es =
        total_earned es / (total_earned es + total_missed es) * 100) ∧
    ((∀ t ∈ es, 0 ≤ t.reward ∧ 0 ≤ t.missed ∧ 0 ≤ t.penalty) →
      (∃ t ∈ es, t.penalty ≠ 0) →
      total_earned es ≠ 0 →
      aggregate_capture es ≠
        capture_rate (RewardTotals.mk (total_earned es) (total_missed es)
          (total_penalty es))) := by
  constructor
  · intro h
    simp only [aggregate_capture, pct, if_neg h]
  · intro hnn hex hE
    have hE0 : 0 ≤ total_earned es :=
      List.sum_nonneg (by
        intro x hx
        rcases List.mem_map.mp hx with ⟨t, ht, rfl⟩
        exact (hnn t ht).1)
    have hM0 : 0 ≤ total_missed es :=
      List.sum_nonneg (by
        intro x hx
        rcases List.mem_map.mp hx with ⟨t, ht, rfl⟩
        exact (hnn t ht).2.1)
    have hEpos : 0 < total_earned es := lt_of_le_of_ne hE0 (Ne.symm hE)
    obtain ⟨t, ht, htp⟩ := hex
    have htp' : 0 < t.penalty := lt_of_le_of_ne (hnn t ht).2.2 (Ne.symm htp)
    have hPpos : 0 < total_penalty es := by
      have hle : t.penalty ≤ total_penalty es :=
        List.single_le_sum (by
          intro x hx
          rcases List.mem_map.mp hx with ⟨u, hu, rfl⟩
          exact (hnn u hu).2.2) _ (List.mem_map_of_mem RewardTotals.penalty ht)
      linarith
    have hd1 : total_earned es + total_missed es ≠ 0 := by positivity
    have hd2 : total_earned es + total_missed es + total_penalty es ≠ 0 := by
      positivity
    intro heq
    rw [aggregate_capture, capture_rate, pct, pct, if_neg hd1] at heq
    simp only [if_neg hd2] at heq
    have h100 : (100 : ℚ) ≠ 0 := by norm_num
    have hfrac :
        total_earned es / (total_earned es + total_missed es) =
          total_earned es /
            (total_earned es + total_missed es + total_penalty es) :=
      mul_right_cancel₀ h100 heq
    rw [div_eq_div_iff hd1 hd2] at hfrac
    nlinarith [hEpos, hPpos]

/-- C10 witness: the amended difference at the concrete batch with the
single entry (reward 1, missed 0, penalty 1), where the aggregate rate is
100 and the per-validator formula on the totals gives 50. -/
theorem aggregate_capture_spec_witness :
    aggregate_capture [RewardTotals.mk 1 0 1] ≠
      capture_rate (RewardTotals.mk (total_earned [RewardTotals.mk 1 0 1])
        (total_missed [RewardTotals.mk 1 0 1])
        (total_penalty [RewardTotals.mk 1 0 1])) :=
  (aggregate_capture_spec [RewardTotals.mk 1 0 1]).2
    (by
      intro t ht
      rw [List.mem_singleton] at ht
      subst ht
      norm_num)
    ⟨RewardTotals.mk 1 0 1, List.mem_singleton_self _, by norm_num⟩
    (by norm_num [total_earned])
